import Mathlib

/-!
Verification of the mcsqs caller module (pymatgen/command_line/mcsqs_caller.py).

The module has two parts: the orchestrator `run_mcsqs`, which validates input,
prepares files, launches one or more instances of the external `mcsqs` binary,
waits with a timeout and recovers partial results, and the aggregator
`_parse_sqs_path` (here `parse_sqs_path`), which reads the output files of a
terminal run directory into an `Sqs` bundle.

The embedding below models the run directory as an association list from file
names to file contents (lists of lines), external binaries as events recorded
in a trace, and wall-clock waiting as a small-step function over rational
finish times.  Definitions are translated from the Python source; the few
places where behaviour of code outside this module is needed (the crystal
structure type, the external converter) are modelled from the specification
and marked as such in their doc comments.
-/

namespace Mcsqs

/-- The objective function value parsed from a correlation report: either the
literal sentinel text Perfect_match, or a numeric value.  The Python code
keeps the token produced by splitting the last line on the equals sign and
converts it with float; we keep the trimmed token itself, which determines
the float value. -/
inductive ObjectiveFunction
  | perfectMatch
  | numeric (tok : String)
deriving DecidableEq, Repr

/-- One entry of the per-instance collection: in the source a dict with keys
structure and objective_function. -/
structure SqsEntry where
  struct : List String
  objective_function : ObjectiveFunction
deriving DecidableEq, Repr

/-- Return type of run_mcsqs, a named tuple in the source.  The best structure
is the value deserialized from the converted canonical best file; deserialization
is external to this module, so the structure is represented by the file content
it was parsed from (see structure_from_file). -/
structure Sqs where
  bestsqs : List String
  objective_function : ObjectiveFunction
  allsqs : List SqsEntry
  directory : String
deriving DecidableEq, Repr

/-- A run directory: an association list from file names to file contents
(lists of lines).  This is the sole shared mutable resource of a run. -/
structure DirState where
  files : List (String × List String)
deriving DecidableEq, Repr

/-- Reading a file: the first entry with the given name, if any. -/
def DirState.read (d : DirState) (name : String) : Option (List String) :=
  (d.files.find? (fun p => p.1 == name)).map Prod.snd

/-- Writing a file: overwrite the contents if the name exists, else append a
new entry. -/
def DirState.write (d : DirState) (name : String) (content : List String) : DirState :=
  if d.files.any (fun p => p.1 == name) then
    ⟨d.files.map (fun p => if p.1 == name then (name, content) else p)⟩
  else ⟨d.files ++ [(name, content)]⟩

/-- Whether the second character list begins with the first (the character
level equivalent of String.startsWith, kept at the list level so that it
evaluates inside the kernel). -/
def dataStarts : List Char → List Char → Bool
  | [], _ => true
  | _ :: _, [] => false
  | c :: cs, d :: ds => c == d && dataStarts cs ds

/-- The glob pattern bestsqs*[0-9]* used by the aggregator: the name starts
with bestsqs and contains at least one digit afterwards. -/
def matchesIndexed (name : String) : Bool :=
  dataStarts "bestsqs".data name.data && (name.data.drop 7).any Char.isDigit

/-- len(list(path.glob(...))) in the source: the number of files whose name
matches the indexed best-structure pattern. -/
def DirState.countIndexed (d : DirState) : Nat :=
  (d.files.map Prod.fst).countP matchesIndexed

/-- Modelled from the spec: the companion format-converter binary (str2cif) is
an external black box invoked per file; it is a pure function of the input
file content, represented here by the content itself. -/
def str2cif (lines : List String) : List String :=
  lines

/-- Modelled from the spec: deserialization of a converted structure file
(Structure.from_file) is external to this module; the parsed structure is
represented by the file content it was read from, and parsing an empty file
fails, as the real deserializer raises on a file with no structures. -/
def structure_from_file (lines : List String) : Option (List String) :=
  if lines.isEmpty then none else some lines

/-- The shell command str2cif < src > dst: the output redirection creates dst
in any case; if the input file is missing the converter contributes nothing
and dst is left empty. -/
def runStr2cif (d : DirState) (src dst : String) : DirState :=
  match d.read src with
  | some ls => d.write dst (str2cif ls)
  | none => d.write dst []

/-- str.split(sep) for a single separator character, at the character-list
level: no collapsing of adjacent separators, the empty input yields one empty
group. -/
def splitOnChar (sep : Char) : List Char → List (List Char)
  | [] => [[]]
  | c :: cs =>
    match splitOnChar sep cs with
    | [] => [[]]
    | grp :: rest => if c == sep then [] :: grp :: rest else (c :: grp) :: rest

/-- str.strip(): remove leading and trailing whitespace characters. -/
def trimChars (l : List Char) : List Char :=
  ((l.dropWhile Char.isWhitespace).reverse.dropWhile Char.isWhitespace).reverse

/-- lines[-1].split('=')[-1].strip() applied to a single line: the token after
the last equals sign, trimmed. -/
def lastEqToken (line : String) : String :=
  ⟨trimChars ((splitOnChar '=' line.data).getLastD line.data)⟩

/-- Failure modes of the aggregator, mirroring the exceptions the Python code
can raise while reading the run directory. -/
inductive ParseErr
  | fileNotFound (name : String)
  | emptyStructureFile (name : String)
  | emptyCorrFile (name : String)
deriving DecidableEq, Repr

/-- The per-instance loop of _parse_sqs_path: for i in range(instances),
convert bestsqs{i+1}.out to bestsqs{i+1}.cif, deserialize it, read
bestcorr{i+1}.out, and reconcile a sentinel objective against the run-level
best.  The first argument i is the current 0-based index, the second the
number of remaining iterations. -/
def parseLoop (best : ObjectiveFunction) : Nat → Nat → DirState →
    Except ParseErr (DirState × List SqsEntry)
  | _, 0, d => .ok (d, [])
  | i, Nat.succ n, d =>
    let sqs_cif := "bestsqs" ++ (toString (i + 1) ++ ".cif")
    let corr_out := "bestcorr" ++ (toString (i + 1) ++ ".out")
    let d1 := runStr2cif d ("bestsqs" ++ (toString (i + 1) ++ ".out")) sqs_cif
    match d1.read sqs_cif with
    | none => .error (.fileNotFound sqs_cif)
    | some cif =>
      match structure_from_file cif with
      | none => .error (.emptyStructureFile sqs_cif)
      | some sqs =>
        match d1.read corr_out with
        | none => .error (.fileNotFound corr_out)
        | some ls =>
          match ls.getLast? with
          | none => .error (.emptyCorrFile corr_out)
          | some last =>
            let tok := lastEqToken last
            let obj := if tok = "Perfect_match" then best else ObjectiveFunction.numeric tok
            match parseLoop best (i + 1) n d1 with
            | .error e => .error e
            | .ok (d2, rest) => .ok (d2, ⟨sqs, obj⟩ :: rest)

/-- The aggregator _parse_sqs_path: count indexed best-structure files,
convert and deserialize the canonical best structure, parse the canonical
best correlation report (final line, split on the equals sign, trailing token
as sentinel or number), then run the per-instance loop.  Returns the updated
directory (conversion writes the .cif files) together with the Sqs bundle. -/
def parse_sqs_path (d : DirState) (path : String) : Except ParseErr (DirState × Sqs) :=
  let instances := d.countIndexed
  let d1 := runStr2cif d "bestsqs.out" "bestsqs.cif"
  match d1.read "bestsqs.cif" with
  | none => .error (.fileNotFound "bestsqs.cif")
  | some cif =>
    match structure_from_file cif with
    | none => .error (.emptyStructureFile "bestsqs.cif")
    | some bestsqs =>
      match d1.read "bestcorr.out" with
      | none => .error (.fileNotFound "bestcorr.out")
      | some ls =>
        match ls.getLast? with
        | none => .error (.emptyCorrFile "bestcorr.out")
        | some last =>
          let tok := lastEqToken last
          let objective_function :=
            if tok = "Perfect_match" then ObjectiveFunction.perfectMatch
            else ObjectiveFunction.numeric tok
          match parseLoop objective_function 0 instances d1 with
          | .error e => .error e
          | .ok (d2, allsqs) => .ok (d2, ⟨bestsqs, objective_function, allsqs, path⟩)

/-- Modelled from the spec: the crystal-structure data type is an external
collaborator, consumed as an opaque value with operations scale by factor,
serialize to an input file and deserialize from a structure file.  We track
its site count (len) and whether it is fully ordered. -/
structure Structure where
  atoms : Nat
  ordered : Bool
deriving DecidableEq, Repr

/-- Modelled from the spec: scaling a structure by the 3-vector [a, b, c]
(structure * scaling in the source) multiplies the site count by a * b * c. -/
def Structure.scaleVec (s : Structure) (a b c : Nat) : Structure :=
  ⟨s.atoms * (a * b * c), s.ordered⟩

/-- The scaling argument of run_mcsqs: a scalar (int or float in Python,
modelled as a rational) or a sequence of three factors. -/
inductive Scaling
  | scalar (q : ℚ)
  | vector (a b c : Nat)
deriving DecidableEq, Repr

/-- The errors run_mcsqs can raise: the two ValueError validations, the
generic Exception on missing best files after normal completion, the
TimeoutError on missing best files after a timeout, and any error escaping
the aggregator. -/
inductive RunError
  | invalidInput (msg : String)
  | searchFailed
  | searchTimeout
  | parseError (e : ParseErr)
deriving DecidableEq, Repr

/-- Observable actions of the orchestrator: launching a subprocess, killing
and reaping the i-th search process, changing the working directory, and
writing a file (the structure written to rndstr.in is carried as a value,
since its serialization is external). -/
inductive Event
  | popen (cmd : List String)
  | kill (i : Nat)
  | reap (i : Nat)
  | chdir (dir : String)
  | writeFile (name : String) (content : List String)
  | writeStructure (name : String) (s : Structure)
deriving DecidableEq, Repr

def Event.isPopen : Event → Bool
  | .popen _ => true
  | _ => false

def Event.isKill : Event → Bool
  | .kill _ => true
  | _ => false

/-- The environment a run executes in: the detected cpu count, the original
working directory, the temporary directory that would be created when no
directory is supplied, the wall-clock finish time of each launched search
process (seconds from launch), and the contents of the run directory at the
time the canonical best-output files are checked and aggregated (produced by
the external binaries). -/
structure Env where
  cpuCount : Nat
  originalCwd : String
  tmpDir : String
  finishTimes : Nat → ℚ
  dirAfter : DirState

/-- The content written to sqscell.out in vector-scaling mode: the 3 by 3
identity matrix preceded by the cell count 1. -/
def sqscellContent : List String :=
  ["1", "1 0 0", "0 1 0", "0 0 1"]

/-- Scaling preparation of run_mcsqs: a scalar is rejected when scaling % 1
is nonzero (it is not an integer value); an accepted scalar yields the
command mcsqs -n scaling*num_atoms.  A vector writes the identity sqscell.out
file, expands the structure eagerly, and yields mcsqs -rc -n num_atoms. -/
def prepareScaling (s : Structure) (num_atoms : Nat) (scaling : Scaling) :
    Except RunError (List Event × List String × Structure) :=
  match scaling with
  | .scalar q =>
    if q.den = 1 then .ok ([], ["mcsqs", "-n " ++ toString (q * num_atoms)], s)
    else .error (.invalidInput ("Scaling should be an integer, not " ++ toString q))
  | .vector a b c =>
    .ok ([Event.writeFile "sqscell.out" sqscellContent],
      ["mcsqs", "-rc", "-n " ++ toString num_atoms], s.scaleVec a b c)

/-- The cluster-generation command: mcsqs with one -size=cutoff flag per
configured cluster size. -/
def clusterCmd (clusters : List (Nat × ℚ)) : List String :=
  "mcsqs" :: clusters.map (fun p => "-" ++ toString p.1 ++ "=" ++ toString p.2)

/-- The five tuning-weight flags shared by every search instance. -/
def addOns (temperature wr wn wd tol : ℚ) : List String :=
  ["-T " ++ toString temperature, "-wr " ++ toString wr, "-wn " ++ toString wn,
    "-wd " ++ toString wd, "-tol " ++ toString tol]

/-- The search commands launched: when instances > 1, one command per
instance with a unique -ip index flag appended; otherwise a single command
without an index flag. -/
def searchCmds (base extra : List String) (instances : Nat) : List (List String) :=
  if 1 < instances then
    (List.range instances).map (fun i => base ++ extra ++ ["-ip " ++ toString (i + 1)])
  else [base ++ extra]

/-- The kill-and-reap sequence of the timeout handler: p.kill() followed by
p.communicate() for each launched process, in order. -/
def killReapEvents : Nat → List Event
  | 0 => []
  | n + 1 => killReapEvents n ++ [Event.kill n, Event.reap n]

/-- The sequential wait loop: for each process in order, p.communicate with
timeout budget seconds.  Each call is granted the full budget measured from
the moment it starts (the current wall-clock time w); the process list holds
absolute finish times counted from launch.  Returns the wall-clock time at
completion, or the time at which the first TimeoutExpired fires. -/
def waitLoop : List ℚ → ℚ → ℚ → Except ℚ ℚ
  | [], _, w => .ok w
  | t :: rest, budget, w =>
    if t ≤ w + budget then waitLoop rest budget (max w t)
    else .error (w + budget)

/-- Modelled from the spec: the waiting discipline the specification
describes, a single shared absolute deadline for every wait; a wait on a
process that has not finished by the deadline immediately observes an
exhausted budget.  Stated for comparison with waitLoop, which is translated
from the code. -/
def waitLoopSharedDeadline : List ℚ → ℚ → ℚ → Except ℚ ℚ
  | [], _, w => .ok w
  | t :: rest, deadline, w =>
    if t ≤ deadline then waitLoopSharedDeadline rest deadline (max w t)
    else .error deadline

/-- os.path.exists("bestsqs.out") and os.path.exists("bestcorr.out"). -/
def bestFilesExist (d : DirState) : Bool :=
  (d.read "bestsqs.out").isSome && (d.read "bestcorr.out").isSome

/-- The finish times of the first k launched processes. -/
def finishList (env : Env) (k : Nat) : List ℚ :=
  (List.range k).map env.finishTimes

/-- The events of a run up to and including the launch of the search
processes: change into the run directory, scaling preparation, write the
structure file, run cluster generation, launch every search command. -/
def runPreamble (dir : String) (evScale : List Event) (s1 : Structure)
    (clusters : List (Nat × ℚ)) (cmds : List (List String)) : List Event :=
  Event.chdir dir :: evScale ++
    [Event.writeStructure "rndstr.in" s1, Event.popen (clusterCmd clusters)] ++
    cmds.map Event.popen

/-- The select-best reduction invocation, performed only when instances > 1. -/
def bestEvents (inst : Nat) : List Event :=
  if 1 < inst then [Event.popen ["mcsqs", "-best"]] else []

/-- The hand-off to the aggregator: _parse_sqs_path("."), with any error it
raises propagating out of run_mcsqs. -/
def aggregateResult (d : DirState) : Except RunError Sqs :=
  match parse_sqs_path d "." with
  | .ok p => .ok p.2
  | .error e => .error (.parseError e)

/-- The outcome of a run: the trace of observable actions, the final working
directory of the process, and the returned bundle or raised error. -/
structure RunResult where
  events : List Event
  cwd : String
  result : Except RunError Sqs
deriving Repr

/-- The orchestrator run_mcsqs.  Control flow translated from the source:
reject an ordered structure; default instances to the detected cpu count;
change into the run directory; validate and prepare the scaling; write the
structure file; generate clusters; launch the search commands; wait on each
process sequentially, each wait granted the timeout search_time * 60; on
normal completion run mcsqs -best when instances > 1 and return the parsed
directory if both best files exist, else raise the generic failure; on
timeout kill and reap every process, run mcsqs -best when instances > 1,
return the parsed directory if both best files exist, else restore the
original working directory and raise the timeout error. -/
def run_mcsqs (s : Structure) (clusters : List (Nat × ℚ)) (scaling : Scaling)
    (search_time : ℚ) (directory : Option String) (instances : Option Nat)
    (temperature wr wn wd tol : ℚ) (env : Env) : RunResult :=
  if s.ordered then ⟨[], env.originalCwd, .error (.invalidInput "Pick a disordered structure")⟩
  else
    let num_atoms := s.atoms
    let inst := instances.getD env.cpuCount
    let dir := directory.getD env.tmpDir
    match prepareScaling s num_atoms scaling with
    | .error e => ⟨[Event.chdir dir], dir, .error e⟩
    | .ok (evScale, base, s1) =>
      let cmds := searchCmds base (addOns temperature wr wn wd tol) inst
      let pre := runPreamble dir evScale s1 clusters cmds
      match waitLoop (finishList env cmds.length) (search_time * 60) 0 with
      | .ok _ =>
        if bestFilesExist env.dirAfter then
          ⟨pre ++ bestEvents inst, dir, aggregateResult env.dirAfter⟩
        else ⟨pre ++ bestEvents inst, dir, .error .searchFailed⟩
      | .error _ =>
        if bestFilesExist env.dirAfter then
          ⟨pre ++ killReapEvents cmds.length ++ bestEvents inst, dir,
            aggregateResult env.dirAfter⟩
        else
          ⟨pre ++ killReapEvents cmds.length ++ bestEvents inst ++
              [Event.chdir env.originalCwd], env.originalCwd, .error .searchTimeout⟩

/-- The trailing token of the final line of a correlation-report file in a
directory: the value the aggregator interprets as sentinel text or number. -/
def corrToken (d : DirState) (name : String) : Option String :=
  (d.read name).bind (fun ls => ls.getLast?.map lastEqToken)

/-- Modelled from the spec: the filesystem contract names the files a run
leaves in the run directory, with the instance index omitted when the
instance count is 1; these are the possible names in a single-instance run
directory. -/
def singleInstanceNames : List String :=
  ["rndstr.in", "sqscell.out", "bestsqs.out", "bestcorr.out", "bestsqs.cif", "bestcorr.cif"]

/-- A terminal run directory of a two-instance parallel run: the canonical
best pair plus indexed per-instance files, as left by the search binary and
the select-best reduction. -/
def exDir2 : DirState := ⟨[
  ("bestsqs.out", ["best struct"]),
  ("bestcorr.out", ["Objective_function= -1.02"]),
  ("bestsqs1.out", ["s one"]),
  ("bestcorr1.out", ["Objective_function= -1.00"]),
  ("bestsqs2.out", ["s two"]),
  ("bestcorr2.out", ["Perfect_match"])]⟩

/-- The directory exDir2 after one aggregator call (the call writes the
converted .cif files into the run directory). -/
def exDir2After : DirState :=
  ((parse_sqs_path exDir2 ".").toOption.map Prod.fst).getD ⟨[]⟩

/-- The Sqs bundle of the first aggregator call on exDir2. -/
def exDir2Sqs : Sqs :=
  ((parse_sqs_path exDir2 ".").toOption.map Prod.snd).getD
    ⟨[], ObjectiveFunction.perfectMatch, [], ""⟩

/-- A terminal single-instance run directory: only unindexed names. -/
def exDirSingle : DirState := ⟨[
  ("rndstr.in", ["input"]),
  ("bestsqs.out", ["best struct"]),
  ("bestcorr.out", ["Objective_function= -0.75"])]⟩

/-- The directory exDirSingle after one aggregator call. -/
def exDirSingleAfter : DirState :=
  ((parse_sqs_path exDirSingle ".").toOption.map Prod.fst).getD ⟨[]⟩

/-- The Sqs bundle of an aggregator call on exDirSingle. -/
def exDirSingleSqs : Sqs :=
  ((parse_sqs_path exDirSingle ".").toOption.map Prod.snd).getD
    ⟨[], ObjectiveFunction.perfectMatch, [], ""⟩

/-- A run directory where the canonical best report ends in the sentinel. -/
def exDirPerfect : DirState := ⟨[
  ("bestsqs.out", ["best struct"]),
  ("bestcorr.out", ["Perfect_match"])]⟩

/-- An empty run directory: no instance produced any output. -/
def exDirEmpty : DirState := ⟨[]⟩

/-- An environment whose two search processes finish at 60 and 90 seconds:
under the fresh-budget waiting of the code a run with search_time = 1 minute
completes both waits normally, although the second process outlives the
shared 60 second deadline the specification describes. -/
def envC1 : Env :=
  ⟨4, "/home", "/tmp/run", fun i => if i = 0 then 60 else 90, exDirEmpty⟩

/-- The run of run_mcsqs used to ground the C1 counterexample. -/
def runC1 : RunResult :=
  run_mcsqs ⟨2, false⟩ [] (Scaling.scalar 4) 1 (some "/run") (some 2) 1 1 1 1 1 envC1

/-- An environment whose search processes never finish within the budget and
whose run directory holds the canonical best pair: the timeout-recovery
path. -/
def envTimeoutRecovered : Env :=
  ⟨4, "/home", "/tmp/run", fun _ => 1000, exDirSingle⟩

/-- An environment whose search processes never finish within the budget and
whose run directory is empty: the timeout-failure path. -/
def envTimeoutFailed : Env :=
  ⟨4, "/home", "/tmp/run", fun _ => 1000, exDirEmpty⟩

/-- An environment whose search processes finish immediately but whose run
directory is empty: the normal-completion failure path. -/
def envExitedEarly : Env :=
  ⟨4, "/home", "/tmp/run", fun _ => 0, exDirEmpty⟩

/-- The search command base produced by scalar scaling 4 on a 2-atom
structure, used by concrete instantiations. -/
def base4 : List String :=
  ["mcsqs", "-n " ++ toString ((4 : ℚ) * ((2 : ℕ) : ℚ))]

/-- The run of run_mcsqs used as the C6 counterexample: scalar scaling 0 is
not positive, but it passes the integrality check and the search is
launched. -/
def runC6 : RunResult :=
  run_mcsqs ⟨4, false⟩ [(2, 5)] (Scaling.scalar 0) 1 (some "/run") (some 2) 1 1 1 1 1
    envExitedEarly

/-! Helper lemmas about the directory model. -/

theorem find_map_write_self (l : List (String × List String)) (n : String) (c : List String)
    (h : l.any (fun p => p.1 == n) = true) :
    (l.map (fun p => if p.1 == n then (n, c) else p)).find? (fun p => p.1 == n) =
      some (n, c) := by
  induction l with
  | nil => simp at h
  | cons p ps ih =>
    by_cases hp : (p.1 == n) = true
    · rw [List.map_cons, if_pos hp]
      simp [List.find?]
    · have hp' : (p.1 == n) = false := by rwa [Bool.not_eq_true] at hp
      rw [List.any_cons, hp', Bool.false_or] at h
      rw [List.map_cons, if_neg hp]
      simp only [List.find?, hp']
      exact ih h

theorem find_map_write_other (l : List (String × List String)) (n m : String)
    (c : List String) (hm : m ≠ n) :
    (l.map (fun p => if p.1 == n then (n, c) else p)).find? (fun p => p.1 == m) =
      l.find? (fun p => p.1 == m) := by
  induction l with
  | nil => rfl
  | cons p ps ih =>
    by_cases hp : (p.1 == n) = true
    · have hpn : p.1 = n := by simpa using hp
      have h1 : (n == m) = false := by
        rw [beq_eq_false_iff_ne]
        exact Ne.symm hm
      have h2 : (p.1 == m) = false := by rw [hpn]; exact h1
      rw [List.map_cons, if_pos hp]
      simp only [List.find?, h1, h2]
      exact ih
    · by_cases hq : (p.1 == m) = true
      · rw [List.map_cons, if_neg hp]
        simp only [List.find?, hq]
      · have hq' : (p.1 == m) = false := by rwa [Bool.not_eq_true] at hq
        rw [List.map_cons, if_neg hp]
        simp only [List.find?, hq']
        exact ih

theorem DirState.read_write (d : DirState) (n m : String) (c : List String) :
    (d.write n c).read m = if m = n then some c else d.read m := by
  unfold DirState.write DirState.read
  by_cases ha : d.files.any (fun p => p.1 == n) = true
  · rw [if_pos ha]
    by_cases hm : m = n
    · subst hm
      rw [if_pos rfl]
      show (List.find? _ _).map Prod.snd = _
      rw [find_map_write_self d.files m c ha]
      rfl
    · rw [if_neg hm]
      show (List.find? _ _).map Prod.snd = _
      rw [find_map_write_other d.files n m c hm]
  · rw [if_neg ha]
    show (List.find? _ (d.files ++ [(n, c)])).map Prod.snd = _
    rw [List.find?_append]
    by_cases hm : m = n
    · subst hm
      have hnone : d.files.find? (fun p => p.1 == m) = none := by
        rw [List.find?_eq_none]
        intro p hp hcontra
        exact ha (List.any_eq_true.mpr ⟨p, hp, hcontra⟩)
      rw [if_pos rfl, hnone]
      simp [List.find?]
    · have h1 : (n == m) = false := by
        rw [beq_eq_false_iff_ne]
        exact Ne.symm hm
      rw [if_neg hm]
      simp only [List.find?, h1]
      rw [Option.or_none]

theorem DirState.read_write_self (d : DirState) (n : String) (c : List String) :
    (d.write n c).read n = some c := by
  simp [DirState.read_write]

theorem DirState.read_write_other (d : DirState) (n m : String) (c : List String)
    (h : m ≠ n) : (d.write n c).read m = d.read m := by
  simp [DirState.read_write, h]

theorem DirState.countIndexed_write (d : DirState) (n : String) (c : List String)
    (h : matchesIndexed n = false) : (d.write n c).countIndexed = d.countIndexed := by
  unfold DirState.write DirState.countIndexed
  by_cases ha : d.files.any (fun p => p.1 == n) = true
  · rw [if_pos ha]
    show ((d.files.map _).map Prod.fst).countP matchesIndexed = _
    rw [List.map_map, List.countP_map, List.countP_map]
    apply List.countP_congr
    intro p _
    by_cases hp : (p.1 == n) = true
    · have hpn : p.1 = n := by simpa using hp
      simp [Function.comp, hp, hpn]
    · simp [Function.comp, hp]
  · rw [if_neg ha]
    show ((d.files ++ [(n, c)]).map Prod.fst).countP matchesIndexed = _
    rw [List.map_append, List.countP_append]
    simp [h]

theorem runStr2cif_read_other (d : DirState) (src dst m : String) (h : m ≠ dst) :
    (runStr2cif d src dst).read m = d.read m := by
  unfold runStr2cif
  cases d.read src <;> simp [DirState.read_write, h]

theorem runStr2cif_countIndexed (d : DirState) (src dst : String)
    (h : matchesIndexed dst = false) :
    (runStr2cif d src dst).countIndexed = d.countIndexed := by
  unfold runStr2cif
  cases d.read src <;> simp [DirState.countIndexed_write, h]

theorem bestcorr_ne_bestsqs (a b : String) : "bestcorr" ++ a ≠ "bestsqs" ++ b := by
  intro h
  have hd : ("bestcorr" ++ a).data = ("bestsqs" ++ b).data := congrArg String.data h
  rw [String.data_append, String.data_append] at hd
  have h4 := congrArg (fun l => l[4]?) hd
  simp only at h4
  rw [List.getElem?_append_left (by decide), List.getElem?_append_left (by decide)] at h4
  exact absurd h4 (by decide)

theorem killReapEvents_kill_count (n : Nat) :
    (killReapEvents n).countP Event.isKill = n := by
  induction n with
  | zero => rfl
  | succ k ih =>
    simp [killReapEvents, List.countP_append, List.countP_cons, ih, Event.isKill]

theorem countP_isPopen_map_popen (cmds : List (List String)) :
    (cmds.map Event.popen).countP Event.isPopen = cmds.length := by
  induction cmds <;> simp [Event.isPopen, List.countP_cons, *]

/-- Characterization of the per-instance loop on success: it yields exactly
one entry per iteration, writes only converted files whose names start with
bestsqs, and each entry's objective value is the sentinel-reconciled token of
that instance's correlation report read from the starting directory. -/
theorem parseLoop_ok (best : ObjectiveFunction) :
    ∀ (n i : Nat) (d d2 : DirState) (es : List SqsEntry),
      parseLoop best i n d = Except.ok (d2, es) →
      es.length = n ∧
      (∀ m : String, (∀ t, m ≠ "bestsqs" ++ t) → d2.read m = d.read m) ∧
      ∀ j, j < n → ∃ ls last e,
        es[j]? = some e ∧
        d.read ("bestcorr" ++ (toString (i + j + 1) ++ ".out")) = some ls ∧
        ls.getLast? = some last ∧
        e.objective_function =
          (if lastEqToken last = "Perfect_match" then best
           else ObjectiveFunction.numeric (lastEqToken last)) := by
  intro n
  induction n with
  | zero =>
    intro i d d2 es h
    simp only [parseLoop] at h
    rw [Except.ok.injEq, Prod.mk.injEq] at h
    obtain ⟨rfl, rfl⟩ := h
    exact ⟨rfl, fun m _ => rfl, fun j hj => absurd hj (by omega)⟩
  | succ k ih =>
    intro i d d2 es h
    simp only [parseLoop] at h
    split at h
    · exact Except.noConfusion h
    · rename_i cif hc
      split at h
      · exact Except.noConfusion h
      · rename_i sqs hs
        split at h
        · exact Except.noConfusion h
        · rename_i ls0 hls
          split at h
          · exact Except.noConfusion h
          · rename_i last0 hlast
            split at h
            · exact Except.noConfusion h
            · rename_i d3 rest hrec
              rw [Except.ok.injEq, Prod.mk.injEq] at h
              obtain ⟨rfl, rfl⟩ := h
              obtain ⟨hlen, hread, hinst⟩ := ih (i + 1) _ d3 rest hrec
              refine ⟨by simp [hlen], ?_, ?_⟩
              · intro m hm
                rw [hread m hm]
                exact runStr2cif_read_other _ _ _ _ (hm _)
              · intro j hj
                cases j with
                | zero =>
                  refine ⟨ls0, last0,
                    ⟨sqs, if lastEqToken last0 = "Perfect_match" then best
                          else ObjectiveFunction.numeric (lastEqToken last0)⟩,
                    by simp, ?_, hlast, rfl⟩
                  rw [← hls]
                  exact (runStr2cif_read_other _ _ _ _ (bestcorr_ne_bestsqs _ _)).symm
                | succ j =>
                  obtain ⟨ls, last, e, h1, h2, h3, h4⟩ := hinst j (by omega)
                  rw [show i + 1 + j + 1 = i + (j + 1) + 1 from by omega] at h2
                  refine ⟨ls, last, e, by simpa using h1, ?_, h3, h4⟩
                  rw [← h2]
                  exact (runStr2cif_read_other _ _ _ _ (bestcorr_ne_bestsqs _ _)).symm

/-- Inversion of a successful aggregator run: the canonical best pair was
read from the directory, the bundle fields are determined by those reads, the
per-instance collection has one entry per indexed file counted at entry, and
each entry's objective value reconciles the sentinel against the run-level
best. -/
theorem parse_sqs_path_inv (d d2 : DirState) (r : Sqs) (path : String)
    (h : parse_sqs_path d path = Except.ok (d2, r)) :
    ∃ bs ls last,
      d.read "bestsqs.out" = some bs ∧
      bs.isEmpty = false ∧
      r.bestsqs = bs ∧
      d.read "bestcorr.out" = some ls ∧
      ls.getLast? = some last ∧
      r.objective_function =
        (if lastEqToken last = "Perfect_match" then ObjectiveFunction.perfectMatch
         else ObjectiveFunction.numeric (lastEqToken last)) ∧
      r.allsqs.length = d.countIndexed ∧
      r.directory = path ∧
      ∀ j, j < d.countIndexed → ∃ ils ilast e,
        r.allsqs[j]? = some e ∧
        d.read ("bestcorr" ++ (toString (j + 1) ++ ".out")) = some ils ∧
        ils.getLast? = some ilast ∧
        e.objective_function =
          (if lastEqToken ilast = "Perfect_match" then r.objective_function
           else ObjectiveFunction.numeric (lastEqToken ilast)) := by
  have hcifname : ("bestsqs.cif" : String) = "bestsqs" ++ ".cif" := by decide
  simp only [parse_sqs_path, runStr2cif, str2cif] at h
  cases hbs : d.read "bestsqs.out" with
  | none =>
    simp only [hbs, DirState.read_write_self, structure_from_file, List.isEmpty_nil,
      if_true] at h
    exact Except.noConfusion h
  | some bs =>
    cases bs with
    | nil =>
      simp only [hbs, DirState.read_write_self, structure_from_file, List.isEmpty_nil,
        if_true] at h
      exact Except.noConfusion h
    | cons b bt =>
      simp only [hbs, DirState.read_write_self, structure_from_file, List.isEmpty_cons,
        if_false, Bool.false_eq_true] at h
      cases hls : (d.write "bestsqs.cif" (b :: bt)).read "bestcorr.out" with
      | none =>
        simp only [hls] at h
        exact Except.noConfusion h
      | some ls =>
        have hls' : d.read "bestcorr.out" = some ls := by
          rw [← hls]
          exact (DirState.read_write_other _ _ _ _ (by decide)).symm
        simp only [hls] at h
        cases hgl : ls.getLast? with
        | none =>
          simp only [hgl] at h
          exact Except.noConfusion h
        | some last =>
          simp only [hgl] at h
          cases hrec : parseLoop
              (if lastEqToken last = "Perfect_match" then ObjectiveFunction.perfectMatch
               else ObjectiveFunction.numeric (lastEqToken last)) 0 d.countIndexed
              (d.write "bestsqs.cif" (b :: bt)) with
          | error e =>
            simp only [hrec] at h
            exact Except.noConfusion h
          | ok pr =>
            obtain ⟨d3, es⟩ := pr
            simp only [hrec] at h
            rw [Except.ok.injEq, Prod.mk.injEq] at h
            obtain ⟨rfl, rfl⟩ := h
            obtain ⟨hlen, _, hinst⟩ := parseLoop_ok _ _ _ _ _ _ hrec
            refine ⟨b :: bt, ls, last, rfl, rfl, rfl, hls', hgl, rfl, hlen, rfl, ?_⟩
            intro j hj
            obtain ⟨ils, ilast, e, h1, h2, h3, h4⟩ := hinst j hj
            rw [show 0 + j + 1 = j + 1 from by omega] at h2
            refine ⟨ils, ilast, e, h1, ?_, h3, h4⟩
            rw [← h2]
            show d.read _ = (d.write "bestsqs.cif" (b :: bt)).read _
            rw [hcifname]
            exact (DirState.read_write_other _ _ _ _ (bestcorr_ne_bestsqs _ _)).symm

/-- Claim C2 (amended): the aggregator is idempotent on a terminal run directory
that holds no file matching the indexed best-structure pattern (the
single-instance layout): a second call on the directory left by a successful
first call returns the bit-identical Sqs bundle.  (On a parallel run
directory idempotence fails, because the first call writes indexed .cif
files that themselves match the indexed pattern; see the counterexample.) -/
theorem parse_sqs_path_idempotent_no_indexed (d d2 : DirState) (r : Sqs) (path : String)
    (h0 : d.countIndexed = 0) (h : parse_sqs_path d path = Except.ok (d2, r)) :
    ∃ d3, parse_sqs_path d2 path = Except.ok (d3, r) := by
  have hm : matchesIndexed "bestsqs.cif" = false := by decide
  simp only [parse_sqs_path, runStr2cif, str2cif, h0, parseLoop] at h
  cases hbs : d.read "bestsqs.out" with
  | none =>
    simp only [hbs, DirState.read_write_self, structure_from_file, List.isEmpty_nil,
      if_true] at h
    exact Except.noConfusion h
  | some bs =>
    cases bs with
    | nil =>
      simp only [hbs, DirState.read_write_self, structure_from_file, List.isEmpty_nil,
        if_true] at h
      exact Except.noConfusion h
    | cons b bt =>
      simp only [hbs, DirState.read_write_self, structure_from_file, List.isEmpty_cons,
        if_false, Bool.false_eq_true] at h
      cases hls : (d.write "bestsqs.cif" (b :: bt)).read "bestcorr.out" with
      | none =>
        simp only [hls] at h
        exact Except.noConfusion h
      | some ls =>
        simp only [hls] at h
        cases hgl : ls.getLast? with
        | none =>
          simp only [hgl] at h
          exact Except.noConfusion h
        | some last =>
          simp only [hgl] at h
          rw [Except.ok.injEq, Prod.mk.injEq] at h
          obtain ⟨rfl, rfl⟩ := h
          refine ⟨(d.write "bestsqs.cif" (b :: bt)).write "bestsqs.cif" (b :: bt), ?_⟩
          have e0 : ((d.write "bestsqs.cif" (b :: bt)) : DirState).countIndexed = 0 := by
            rw [DirState.countIndexed_write _ _ _ hm, h0]
          have e1 : ((d.write "bestsqs.cif" (b :: bt)) : DirState).read "bestsqs.out" =
              some (b :: bt) := by
            rw [DirState.read_write_other _ _ _ _ (by decide), hbs]
          have e2 : (((d.write "bestsqs.cif" (b :: bt)).write "bestsqs.cif"
              (b :: bt)) : DirState).read "bestcorr.out" = some ls := by
            rw [DirState.read_write_other _ _ _ _ (by decide), hls]
          simp only [parse_sqs_path, runStr2cif, str2cif, e0, e1, parseLoop,
            DirState.read_write_self, structure_from_file, List.isEmpty_cons, if_false,
            Bool.false_eq_true, e2, hgl]

/-- Shape of a run in which every sequential wait returns within its budget:
the normal-completion path. -/
theorem run_mcsqs_normal_shape (s : Structure) (clusters : List (Nat × ℚ))
    (scaling : Scaling) (search_time : ℚ) (directory : Option String)
    (instances : Option Nat) (temperature wr wn wd tol : ℚ) (env : Env)
    (evScale : List Event) (base : List String) (s1 : Structure) (tw : ℚ)
    (hord : s.ordered = false)
    (hprep : prepareScaling s s.atoms scaling = Except.ok (evScale, base, s1))
    (hwait : waitLoop (finishList env (searchCmds base (addOns temperature wr wn wd tol)
        (instances.getD env.cpuCount)).length) (search_time * 60) 0 = Except.ok tw) :
    run_mcsqs s clusters scaling search_time directory instances temperature wr wn wd tol env =
      (if bestFilesExist env.dirAfter then
        ⟨runPreamble (directory.getD env.tmpDir) evScale s1 clusters
            (searchCmds base (addOns temperature wr wn wd tol) (instances.getD env.cpuCount)) ++
          bestEvents (instances.getD env.cpuCount),
          directory.getD env.tmpDir, aggregateResult env.dirAfter⟩
      else
        ⟨runPreamble (directory.getD env.tmpDir) evScale s1 clusters
            (searchCmds base (addOns temperature wr wn wd tol) (instances.getD env.cpuCount)) ++
          bestEvents (instances.getD env.cpuCount),
          directory.getD env.tmpDir, Except.error RunError.searchFailed⟩) := by
  simp only [run_mcsqs, hord, Bool.false_eq_true, if_false, hprep, hwait]

/-- Shape of a run in which some sequential wait exhausts its budget: the
timeout path, with every process killed and reaped. -/
theorem run_mcsqs_timeout_shape (s : Structure) (clusters : List (Nat × ℚ))
    (scaling : Scaling) (search_time : ℚ) (directory : Option String)
    (instances : Option Nat) (temperature wr wn wd tol : ℚ) (env : Env)
    (evScale : List Event) (base : List String) (s1 : Structure) (tw : ℚ)
    (hord : s.ordered = false)
    (hprep : prepareScaling s s.atoms scaling = Except.ok (evScale, base, s1))
    (hwait : waitLoop (finishList env (searchCmds base (addOns temperature wr wn wd tol)
        (instances.getD env.cpuCount)).length) (search_time * 60) 0 = Except.error tw) :
    run_mcsqs s clusters scaling search_time directory instances temperature wr wn wd tol env =
      (if bestFilesExist env.dirAfter then
        ⟨runPreamble (directory.getD env.tmpDir) evScale s1 clusters
            (searchCmds base (addOns temperature wr wn wd tol) (instances.getD env.cpuCount)) ++
          killReapEvents (searchCmds base (addOns temperature wr wn wd tol)
            (instances.getD env.cpuCount)).length ++
          bestEvents (instances.getD env.cpuCount),
          directory.getD env.tmpDir, aggregateResult env.dirAfter⟩
      else
        ⟨runPreamble (directory.getD env.tmpDir) evScale s1 clusters
            (searchCmds base (addOns temperature wr wn wd tol) (instances.getD env.cpuCount)) ++
          killReapEvents (searchCmds base (addOns temperature wr wn wd tol)
            (instances.getD env.cpuCount)).length ++
          bestEvents (instances.getD env.cpuCount) ++ [Event.chdir env.originalCwd],
          env.originalCwd, Except.error RunError.searchTimeout⟩) := by
  simp only [run_mcsqs, hord, Bool.false_eq_true, if_false, hprep, hwait]

/-- Claim C3: when the deadline expires the orchestrator kills and reaps every
launched instance (one kill per process), still invokes the select-best
reduction exactly when more than one instance was used, and when both
canonical best-output files exist afterwards the run hands off to the
aggregator normally: the returned result is the aggregator's output, which
is never the timeout error. -/
theorem c3_timeout_recovery (s : Structure) (clusters : List (Nat × ℚ))
    (scaling : Scaling) (search_time : ℚ) (directory : Option String)
    (instances : Option Nat) (temperature wr wn wd tol : ℚ) (env : Env)
    (evScale : List Event) (base : List String) (s1 : Structure) (tw : ℚ)
    (hord : s.ordered = false)
    (hprep : prepareScaling s s.atoms scaling = Except.ok (evScale, base, s1))
    (hwait : waitLoop (finishList env (searchCmds base (addOns temperature wr wn wd tol)
        (instances.getD env.cpuCount)).length) (search_time * 60) 0 = Except.error tw)
    (hfiles : bestFilesExist env.dirAfter = true) :
    run_mcsqs s clusters scaling search_time directory instances temperature wr wn wd tol env =
      ⟨runPreamble (directory.getD env.tmpDir) evScale s1 clusters
          (searchCmds base (addOns temperature wr wn wd tol) (instances.getD env.cpuCount)) ++
        killReapEvents (searchCmds base (addOns temperature wr wn wd tol)
          (instances.getD env.cpuCount)).length ++
        bestEvents (instances.getD env.cpuCount),
        directory.getD env.tmpDir, aggregateResult env.dirAfter⟩ ∧
    (killReapEvents (searchCmds base (addOns temperature wr wn wd tol)
        (instances.getD env.cpuCount)).length).countP Event.isKill =
      (searchCmds base (addOns temperature wr wn wd tol) (instances.getD env.cpuCount)).length ∧
    (bestEvents (instances.getD env.cpuCount) = [Event.popen ["mcsqs", "-best"]] ↔
      1 < instances.getD env.cpuCount) ∧
    aggregateResult env.dirAfter ≠ Except.error RunError.searchTimeout := by
  refine ⟨?_, killReapEvents_kill_count _, ?_, ?_⟩
  · rw [run_mcsqs_timeout_shape s clusters scaling search_time directory instances
      temperature wr wn wd tol env evScale base s1 tw hord hprep hwait, if_pos hfiles]
  · unfold bestEvents
    by_cases hi : 1 < instances.getD env.cpuCount
    · simp [hi]
    · simp [hi]
  · cases hp : parse_sqs_path env.dirAfter "." <;> simp [aggregateResult, hp]

/-- Claim C4: after either completion path the orchestrator checks that both
canonical best-output files exist; when they are missing on the timeout path
it restores the original working directory and raises the timeout error,
when they are missing on the normal-completion path it raises the generic
search failure without restoring the working directory. -/
theorem c4_missing_best_files (s : Structure) (clusters : List (Nat × ℚ))
    (scaling : Scaling) (search_time : ℚ) (directory : Option String)
    (instances : Option Nat) (temperature wr wn wd tol : ℚ) (env : Env)
    (evScale : List Event) (base : List String) (s1 : Structure)
    (hord : s.ordered = false)
    (hprep : prepareScaling s s.atoms scaling = Except.ok (evScale, base, s1))
    (hfiles : bestFilesExist env.dirAfter = false) :
    (∀ tw, waitLoop (finishList env (searchCmds base (addOns temperature wr wn wd tol)
        (instances.getD env.cpuCount)).length) (search_time * 60) 0 = Except.error tw →
      run_mcsqs s clusters scaling search_time directory instances temperature wr wn wd tol env =
        ⟨runPreamble (directory.getD env.tmpDir) evScale s1 clusters
            (searchCmds base (addOns temperature wr wn wd tol) (instances.getD env.cpuCount)) ++
          killReapEvents (searchCmds base (addOns temperature wr wn wd tol)
            (instances.getD env.cpuCount)).length ++
          bestEvents (instances.getD env.cpuCount) ++ [Event.chdir env.originalCwd],
          env.originalCwd, Except.error RunError.searchTimeout⟩) ∧
    (∀ tw, waitLoop (finishList env (searchCmds base (addOns temperature wr wn wd tol)
        (instances.getD env.cpuCount)).length) (search_time * 60) 0 = Except.ok tw →
      run_mcsqs s clusters scaling search_time directory instances temperature wr wn wd tol env =
        ⟨runPreamble (directory.getD env.tmpDir) evScale s1 clusters
            (searchCmds base (addOns temperature wr wn wd tol) (instances.getD env.cpuCount)) ++
          bestEvents (instances.getD env.cpuCount),
          directory.getD env.tmpDir, Except.error RunError.searchFailed⟩) := by
  constructor
  · intro tw hw
    rw [run_mcsqs_timeout_shape s clusters scaling search_time directory instances
      temperature wr wn wd tol env evScale base s1 tw hord hprep hw,
      if_neg (by simp [hfiles])]
  · intro tw hw
    rw [run_mcsqs_normal_shape s clusters scaling search_time directory instances
      temperature wr wn wd tol env evScale base s1 tw hord hprep hw,
      if_neg (by simp [hfiles])]

/-- Claim C7: in vector-scaling mode the run writes the identity cell-shape file
sqscell.out (the 3 by 3 identity regardless of the vector), and the structure
written to the rndstr.in input file is the input structure expanded eagerly,
with exactly a * b * c times the original atom count. -/
theorem c7_vector_scaling (s : Structure) (clusters : List (Nat × ℚ)) (a b c : Nat)
    (search_time : ℚ) (directory : Option String) (instances : Option Nat)
    (temperature wr wn wd tol : ℚ) (env : Env)
    (hord : s.ordered = false) :
    (∃ tail, (run_mcsqs s clusters (Scaling.vector a b c) search_time directory instances
        temperature wr wn wd tol env).events =
      Event.chdir (directory.getD env.tmpDir) ::
        Event.writeFile "sqscell.out" sqscellContent ::
        Event.writeStructure "rndstr.in" (s.scaleVec a b c) :: tail) ∧
    (s.scaleVec a b c).atoms = a * b * c * s.atoms ∧
    sqscellContent = ["1", "1 0 0", "0 1 0", "0 0 1"] := by
  refine ⟨?_, by simp [Structure.scaleVec]; ring, rfl⟩
  have hprep : prepareScaling s s.atoms (Scaling.vector a b c) =
      Except.ok ([Event.writeFile "sqscell.out" sqscellContent],
        ["mcsqs", "-rc", "-n " ++ toString s.atoms], s.scaleVec a b c) := rfl
  cases hw : waitLoop (finishList env (searchCmds ["mcsqs", "-rc", "-n " ++ toString s.atoms]
      (addOns temperature wr wn wd tol) (instances.getD env.cpuCount)).length)
      (search_time * 60) 0 with
  | ok tw =>
    rw [run_mcsqs_normal_shape s clusters (Scaling.vector a b c) search_time directory
      instances temperature wr wn wd tol env _ _ _ tw hord hprep hw]
    by_cases hb : bestFilesExist env.dirAfter = true
    · rw [if_pos hb]
      exact ⟨Event.popen (clusterCmd clusters) ::
        ((searchCmds ["mcsqs", "-rc", "-n " ++ toString s.atoms]
            (addOns temperature wr wn wd tol) (instances.getD env.cpuCount)).map Event.popen ++
          bestEvents (instances.getD env.cpuCount)), by simp [runPreamble]⟩
    · rw [if_neg hb]
      exact ⟨Event.popen (clusterCmd clusters) ::
        ((searchCmds ["mcsqs", "-rc", "-n " ++ toString s.atoms]
            (addOns temperature wr wn wd tol) (instances.getD env.cpuCount)).map Event.popen ++
          bestEvents (instances.getD env.cpuCount)), by simp [runPreamble]⟩
  | error tw =>
    rw [run_mcsqs_timeout_shape s clusters (Scaling.vector a b c) search_time directory
      instances temperature wr wn wd tol env _ _ _ tw hord hprep hw]
    by_cases hb : bestFilesExist env.dirAfter = true
    · rw [if_pos hb]
      exact ⟨Event.popen (clusterCmd clusters) ::
        ((searchCmds ["mcsqs", "-rc", "-n " ++ toString s.atoms]
            (addOns temperature wr wn wd tol) (instances.getD env.cpuCount)).map Event.popen ++
          (killReapEvents (searchCmds ["mcsqs", "-rc", "-n " ++ toString s.atoms]
            (addOns temperature wr wn wd tol) (instances.getD env.cpuCount)).length ++
          bestEvents (instances.getD env.cpuCount))), by simp [runPreamble]⟩
    · rw [if_neg hb]
      exact ⟨Event.popen (clusterCmd clusters) ::
        ((searchCmds ["mcsqs", "-rc", "-n " ++ toString s.atoms]
            (addOns temperature wr wn wd tol) (instances.getD env.cpuCount)).map Event.popen ++
          (killReapEvents (searchCmds ["mcsqs", "-rc", "-n " ++ toString s.atoms]
            (addOns temperature wr wn wd tol) (instances.getD env.cpuCount)).length ++
          (bestEvents (instances.getD env.cpuCount) ++ [Event.chdir env.originalCwd]))),
        by simp [runPreamble]⟩

/-- Claim C9: a fully ordered structure is rejected with the invalid-input error
before anything else happens: the trace is empty, so in particular no
subprocess is ever launched. -/
theorem c9_ordered_rejected (s : Structure) (clusters : List (Nat × ℚ))
    (scaling : Scaling) (search_time : ℚ) (directory : Option String)
    (instances : Option Nat) (temperature wr wn wd tol : ℚ) (env : Env)
    (hord : s.ordered = true) :
    run_mcsqs s clusters scaling search_time directory instances temperature wr wn wd tol env =
      ⟨[], env.originalCwd, Except.error (RunError.invalidInput "Pick a disordered structure")⟩ ∧
    (run_mcsqs s clusters scaling search_time directory instances temperature wr wn wd tol
      env).events.countP Event.isPopen = 0 := by
  have h : run_mcsqs s clusters scaling search_time directory instances temperature wr wn wd
      tol env = ⟨[], env.originalCwd,
        Except.error (RunError.invalidInput "Pick a disordered structure")⟩ := by
    simp [run_mcsqs, hord]
  exact ⟨h, by rw [h]; rfl⟩

/-- Claim C10: when the caller omits the instance count the run behaves exactly as
if the detected cpu count had been passed; with more than one detected core
the launch uses one indexed command per instance, each carrying its -ip
index flag, and with exactly one core a single unindexed command is
launched. -/
theorem c10_default_instances (s : Structure) (clusters : List (Nat × ℚ))
    (scaling : Scaling) (search_time : ℚ) (directory : Option String)
    (temperature wr wn wd tol : ℚ) (env : Env) :
    run_mcsqs s clusters scaling search_time directory none temperature wr wn wd tol env =
      run_mcsqs s clusters scaling search_time directory (some env.cpuCount) temperature wr
        wn wd tol env ∧
    (∀ base extra n, 1 < n →
      (searchCmds base extra n).length = n ∧
      ∀ i (hi : i < (searchCmds base extra n).length),
        ("-ip " ++ toString (i + 1)) ∈ (searchCmds base extra n).get ⟨i, hi⟩) ∧
    (∀ base extra, searchCmds base extra 1 = [base ++ extra]) := by
  refine ⟨rfl, ?_, ?_⟩
  · intro base extra n hn
    refine ⟨by simp [searchCmds, hn], ?_⟩
    intro i hi
    have hcmds : searchCmds base extra n =
        (List.range n).map (fun i => base ++ extra ++ ["-ip " ++ toString (i + 1)]) := by
      simp [searchCmds, hn]
    have hi' : i < n := by
      have := hi
      rw [hcmds] at this
      simpa using this
    have : (searchCmds base extra n).get ⟨i, hi⟩ =
        base ++ extra ++ ["-ip " ++ toString (i + 1)] := by
      rw [List.get_eq_getElem]
      simp only [hcmds]
      rw [List.getElem_map, List.getElem_range]
    rw [this]
    simp
  · intro base extra
    simp [searchCmds]

/-- Claim C6 (amended): only integrality of a scalar scaling is validated: a
scalar whose value is not an integer raises the invalid-input error (after
the working-directory change, before any subprocess launch), while any
integer scalar, positive or not, passes validation and never produces the
invalid-input error.  (Positivity is not checked; see the counterexample,
where scaling 0 launches the search.) -/
theorem c6_integer_validation (s : Structure) (clusters : List (Nat × ℚ)) (q : ℚ)
    (search_time : ℚ) (directory : Option String) (instances : Option Nat)
    (temperature wr wn wd tol : ℚ) (env : Env)
    (hord : s.ordered = false) :
    (q.den ≠ 1 →
      run_mcsqs s clusters (Scaling.scalar q) search_time directory instances temperature wr
          wn wd tol env =
        ⟨[Event.chdir (directory.getD env.tmpDir)], directory.getD env.tmpDir,
          Except.error (RunError.invalidInput
            ("Scaling should be an integer, not " ++ toString q))⟩) ∧
    (q.den = 1 → ∀ msg, (run_mcsqs s clusters (Scaling.scalar q) search_time directory
        instances temperature wr wn wd tol env).result ≠
      Except.error (RunError.invalidInput msg)) := by
  constructor
  · intro hq
    simp [run_mcsqs, hord, prepareScaling, hq]
  · intro hq msg
    have hprep : prepareScaling s s.atoms (Scaling.scalar q) =
        Except.ok ([], ["mcsqs", "-n " ++ toString (q * s.atoms)], s) := by
      simp [prepareScaling, hq]
    cases hw : waitLoop (finishList env (searchCmds ["mcsqs", "-n " ++ toString (q * s.atoms)]
        (addOns temperature wr wn wd tol) (instances.getD env.cpuCount)).length)
        (search_time * 60) 0 with
    | ok tw =>
      rw [run_mcsqs_normal_shape s clusters (Scaling.scalar q) search_time directory
        instances temperature wr wn wd tol env _ _ _ tw hord hprep hw]
      by_cases hb : bestFilesExist env.dirAfter = true
      · rw [if_pos hb]
        cases hp : parse_sqs_path env.dirAfter "." <;> simp [aggregateResult, hp]
      · rw [if_neg hb]
        simp
    | error tw =>
      rw [run_mcsqs_timeout_shape s clusters (Scaling.scalar q) search_time directory
        instances temperature wr wn wd tol env _ _ _ tw hord hprep hw]
      by_cases hb : bestFilesExist env.dirAfter = true
      · rw [if_pos hb]
        cases hp : parse_sqs_path env.dirAfter "." <;> simp [aggregateResult, hp]
      · rw [if_neg hb]
        simp

/-- Claim C5: the objective value is the trimmed trailing token of the final line
of the correlation report, split on the equals sign.  If the canonical best
report ends in the sentinel text the returned best objective value is the
sentinel unchanged; if an instance's report ends in the sentinel while the
canonical best is a numeric token v, that instance's entry carries the
numeric value v. -/
theorem c5_sentinel_reconciliation (d d2 : DirState) (r : Sqs) (path : String)
    (h : parse_sqs_path d path = Except.ok (d2, r)) :
    (corrToken d "bestcorr.out" = some "Perfect_match" →
      r.objective_function = ObjectiveFunction.perfectMatch) ∧
    (∀ tok, corrToken d "bestcorr.out" = some tok → tok ≠ "Perfect_match" →
      r.objective_function = ObjectiveFunction.numeric tok ∧
      ∀ j e, r.allsqs[j]? = some e →
        corrToken d ("bestcorr" ++ (toString (j + 1) ++ ".out")) = some "Perfect_match" →
        e.objective_function = ObjectiveFunction.numeric tok) := by
  obtain ⟨bs, ls, last, hbs, hbe, hb, hcorr, hlast, hobj, hlen, hdir, hinst⟩ :=
    parse_sqs_path_inv d d2 r path h
  have htok : corrToken d "bestcorr.out" = some (lastEqToken last) := by
    simp [corrToken, hcorr, hlast]
  constructor
  · intro hsent
    rw [htok] at hsent
    have : lastEqToken last = "Perfect_match" := by
      injection hsent
    rw [hobj, if_pos this]
  · intro tok htk hne
    rw [htok] at htk
    have heq : lastEqToken last = tok := by injection htk
    subst heq
    have hro : r.objective_function = ObjectiveFunction.numeric (lastEqToken last) := by
      rw [hobj, if_neg hne]
    refine ⟨hro, ?_⟩
    intro j e hje hsent
    have hj : j < d.countIndexed := by
      rw [← hlen]
      exact List.getElem?_eq_some.mp hje |>.1
    obtain ⟨ils, ilast, e2, h1, h2, h3, h4⟩ := hinst j hj
    have he : e2 = e := by
      rw [hje] at h1
      injection h1 with he'
      exact he'.symm
    subst he
    have hitok : corrToken d ("bestcorr" ++ (toString (j + 1) ++ ".out")) =
        some (lastEqToken ilast) := by
      simp [corrToken, h2, h3]
    rw [hitok] at hsent
    have hisent : lastEqToken ilast = "Perfect_match" := by injection hsent
    rw [h4, if_pos hisent, hro]

/-- Claim C8: on a successful aggregation the per-instance collection has exactly
one entry per file matching the indexed best-structure pattern counted at
aggregation time, and on a directory that holds only the unindexed
single-instance filenames that count is 0, so the collection is empty. -/
theorem c8_instance_count (d d2 : DirState) (r : Sqs) (path : String)
    (h : parse_sqs_path d path = Except.ok (d2, r)) :
    r.allsqs.length = d.countIndexed ∧
    ((∀ name ∈ d.files.map Prod.fst, name ∈ singleInstanceNames) →
      r.allsqs.length = 0) := by
  obtain ⟨bs, ls, last, hbs, hbe, hb, hcorr, hlast, hobj, hlen, hdir, hinst⟩ :=
    parse_sqs_path_inv d d2 r path h
  refine ⟨hlen, fun hnames => ?_⟩
  rw [hlen]
  unfold DirState.countIndexed
  rw [List.countP_eq_zero]
  intro name hn
  have hmem := hnames name hn
  have hall : ∀ x ∈ singleInstanceNames, matchesIndexed x = false := by decide
  simp [hall name hmem]

/-- Counterexample C2: on a two-instance parallel run directory the
aggregator is not idempotent: the first call succeeds and writes the
converted bestsqs1.cif and bestsqs2.cif files, which themselves match the
indexed glob pattern, so the second call sees 4 indexed files instead of 2
and fails instead of returning the same bundle. -/
theorem c2_idempotence_counterexample :
    parse_sqs_path exDir2 "." = Except.ok (exDir2After, exDir2Sqs) ∧
    exDir2.countIndexed = 2 ∧
    exDir2After.countIndexed = 4 ∧
    (parse_sqs_path exDir2After ".").isOk = false :=
  ⟨rfl, by decide, by decide, by decide⟩

/-- Counterexample C1: the orchestrator does not wait under a single
shared absolute deadline.  With a 60 second budget and finish times 60 and
90, the first wait consumes the whole budget, yet the second wait succeeds
because each communicate call is granted the full budget afresh; under the
shared-deadline discipline the specification describes, the second wait
would observe an exhausted budget and time out.  A full run on these finish
times takes the normal-completion path: no process is killed. -/
theorem c1_shared_deadline_counterexample :
    waitLoop [(60 : ℚ), 90] 60 0 = Except.ok 90 ∧
    waitLoopSharedDeadline [(60 : ℚ), 90] 60 0 = Except.error 60 ∧
    waitLoop [(60 : ℚ), 90] 60 0 ≠ waitLoopSharedDeadline [(60 : ℚ), 90] 60 0 ∧
    runC1.events.countP Event.isKill = 0 ∧
    runC1.result = Except.error RunError.searchFailed := by
  have h1 : waitLoop [(60 : ℚ), 90] 60 0 = Except.ok 90 := by
    unfold waitLoop
    rw [if_pos (by norm_num)]
    unfold waitLoop
    rw [if_pos (by norm_num)]
    unfold waitLoop
    norm_num
  have h2 : waitLoopSharedDeadline [(60 : ℚ), 90] 60 0 = Except.error 60 := by
    unfold waitLoopSharedDeadline
    rw [if_pos (by norm_num)]
    unfold waitLoopSharedDeadline
    rw [if_neg (by norm_num)]
  have hprep : prepareScaling ⟨2, false⟩ (Structure.atoms ⟨2, false⟩) (Scaling.scalar 4) =
      Except.ok ([], ["mcsqs", "-n " ++ toString ((4 : ℚ) * ((2 : ℕ) : ℚ))], ⟨2, false⟩) :=
    rfl
  have hw : waitLoop (finishList envC1 (searchCmds
      ["mcsqs", "-n " ++ toString ((4 : ℚ) * ((2 : ℕ) : ℚ))] (addOns 1 1 1 1 1)
      ((some 2).getD envC1.cpuCount)).length) ((1 : ℚ) * 60) 0 = Except.ok 90 := by
    show waitLoop [(60 : ℚ), 90] ((1 : ℚ) * 60) 0 = Except.ok 90
    unfold waitLoop
    rw [if_pos (by norm_num)]
    unfold waitLoop
    rw [if_pos (by norm_num)]
    unfold waitLoop
    norm_num
  have hrun := run_mcsqs_normal_shape ⟨2, false⟩ [] (Scaling.scalar 4) 1 (some "/run")
    (some 2) 1 1 1 1 1 envC1 [] ["mcsqs", "-n " ++ toString ((4 : ℚ) * ((2 : ℕ) : ℚ))]
    ⟨2, false⟩ 90 rfl hprep hw
  rw [if_neg (by decide)] at hrun
  have hrunC1 : runC1 = ⟨runPreamble "/run" [] ⟨2, false⟩ []
      (searchCmds ["mcsqs", "-n " ++ toString ((4 : ℚ) * ((2 : ℕ) : ℚ))] (addOns 1 1 1 1 1)
        ((some 2).getD envC1.cpuCount)) ++ bestEvents ((some 2).getD envC1.cpuCount),
      "/run", Except.error RunError.searchFailed⟩ := hrun
  refine ⟨h1, h2, by rw [h1, h2]; simp, ?_, by rw [hrunC1]⟩
  rw [hrunC1]
  show ((runPreamble "/run" [] ⟨2, false⟩ [] _ ++ bestEvents _).countP Event.isKill) = 0
  simp [runPreamble, bestEvents, searchCmds, Event.isKill, List.countP_cons, List.countP_map,
    Function.comp, List.countP_eq_zero]

/-- Claim C1 (amended): the orchestrator waits on the instances sequentially, but
each wait is granted the full search-time-times-60 budget independently,
measured from the moment that wait starts, so the loop completes without a
timeout exactly when every instance finishes within the full budget counted
from the completion of all earlier waits; the budget is not a shared
absolute deadline. -/
theorem c1_fresh_budget_per_wait (finish : List ℚ) (search_time w : ℚ) :
    (∃ tw, waitLoop finish (search_time * 60) w = Except.ok tw) ↔
      ∀ i (hi : i < finish.length),
        finish.get ⟨i, hi⟩ ≤ (finish.take i).foldl max w + search_time * 60 := by
  induction finish generalizing w with
  | nil =>
    simp only [waitLoop]
    constructor
    · intro _ i hi
      exact absurd hi (by simp)
    · intro _
      exact ⟨w, rfl⟩
  | cons t rest ih =>
    simp only [waitLoop]
    by_cases ht : t ≤ w + search_time * 60
    · rw [if_pos ht, ih (max w t)]
      constructor
      · intro hall i hi
        match i, hi with
        | 0, _ => simpa using ht
        | i + 1, hi =>
          have := hall i (by simpa using hi)
          simpa [List.foldl] using this
      · intro hall i hi
        have := hall (i + 1) (by simpa using hi)
        simpa [List.foldl] using this
    · rw [if_neg ht]
      constructor
      · rintro ⟨tw, htw⟩
        exact Except.noConfusion htw
      · intro hall
        have h0 := hall 0 (by simp)
        simp at h0
        exact (ht h0).elim

/-- Counterexample C6: scalar scaling 0 is an integer but not positive;
it passes validation, the search is launched (four subprocess invocations:
cluster generation, two search instances, select-best), and the run fails
later with the generic search failure rather than the invalid-input
error. -/
theorem c6_nonpositive_scaling_counterexample :
    runC6.result = Except.error RunError.searchFailed ∧
    runC6.events.countP Event.isPopen = 4 := by
  have hprep : prepareScaling ⟨4, false⟩ (Structure.atoms ⟨4, false⟩) (Scaling.scalar 0) =
      Except.ok ([], ["mcsqs", "-n " ++ toString ((0 : ℚ) * ((4 : ℕ) : ℚ))], ⟨4, false⟩) :=
    rfl
  have hw : waitLoop (finishList envExitedEarly (searchCmds
      ["mcsqs", "-n " ++ toString ((0 : ℚ) * ((4 : ℕ) : ℚ))] (addOns 1 1 1 1 1)
      ((some 2).getD envExitedEarly.cpuCount)).length) ((1 : ℚ) * 60) 0 =
      Except.ok (max (max 0 0) 0) := by
    show waitLoop [(0 : ℚ), 0] ((1 : ℚ) * 60) 0 = Except.ok (max (max 0 0) 0)
    unfold waitLoop
    rw [if_pos (by norm_num)]
    unfold waitLoop
    rw [if_pos (by simp)]
    unfold waitLoop
    rfl
  have hrun := run_mcsqs_normal_shape ⟨4, false⟩ [(2, 5)] (Scaling.scalar 0) 1 (some "/run")
    (some 2) 1 1 1 1 1 envExitedEarly [] ["mcsqs", "-n " ++ toString ((0 : ℚ) * ((4 : ℕ) : ℚ))]
    ⟨4, false⟩ (max (max 0 0) 0) rfl hprep hw
  rw [if_neg (by decide)] at hrun
  have hrunC6 : runC6 = ⟨runPreamble "/run" [] ⟨4, false⟩ [(2, 5)]
      (searchCmds ["mcsqs", "-n " ++ toString ((0 : ℚ) * ((4 : ℕ) : ℚ))] (addOns 1 1 1 1 1)
        ((some 2).getD envExitedEarly.cpuCount)) ++
      bestEvents ((some 2).getD envExitedEarly.cpuCount),
      "/run", Except.error RunError.searchFailed⟩ := hrun
  refine ⟨by rw [hrunC6], ?_⟩
  rw [hrunC6]
  show ((runPreamble "/run" [] ⟨4, false⟩ [(2, 5)] _ ++ bestEvents _).countP Event.isPopen) = 4
  have hlen2 : (searchCmds ["mcsqs", "-n " ++ toString ((0 : ℚ) * ((4 : ℕ) : ℚ))]
      (addOns 1 1 1 1 1) ((some 2).getD envExitedEarly.cpuCount)).length = 2 := by
    simp [searchCmds]
  rw [show bestEvents ((some 2).getD envExitedEarly.cpuCount) =
      [Event.popen ["mcsqs", "-best"]] from rfl]
  simp only [runPreamble, List.nil_append, List.cons_append, List.countP_append,
    List.countP_cons, List.countP_nil, countP_isPopen_map_popen, hlen2]
  simp [Event.isPopen]

/-- Witness for c2: the amended idempotence applied to the concrete
single-instance run directory. -/
theorem c2_idempotent_when_no_indexed_witness :
    ∃ d3, parse_sqs_path exDirSingleAfter "." = Except.ok (d3, exDirSingleSqs) :=
  parse_sqs_path_idempotent_no_indexed exDirSingle exDirSingleAfter exDirSingleSqs "."
    (by decide) rfl

/-- Witness for c3: a two-instance run whose processes outlive the budget
but whose directory holds the canonical best pair recovers normally. -/
theorem c3_timeout_recovery_witness :
    run_mcsqs ⟨2, false⟩ [(2, 5)] (Scaling.scalar 4) 1 (some "/run") (some 2) 1 1 1 1 1
        envTimeoutRecovered =
      ⟨runPreamble "/run" [] ⟨2, false⟩ [(2, 5)] (searchCmds base4 (addOns 1 1 1 1 1) 2) ++
        killReapEvents (searchCmds base4 (addOns 1 1 1 1 1) 2).length ++ bestEvents 2,
        "/run", aggregateResult exDirSingle⟩ ∧
    (killReapEvents (searchCmds base4 (addOns 1 1 1 1 1) 2).length).countP Event.isKill =
      (searchCmds base4 (addOns 1 1 1 1 1) 2).length ∧
    (bestEvents 2 = [Event.popen ["mcsqs", "-best"]] ↔ 1 < 2) ∧
    aggregateResult exDirSingle ≠ Except.error RunError.searchTimeout :=
  c3_timeout_recovery ⟨2, false⟩ [(2, 5)] (Scaling.scalar 4) 1 (some "/run") (some 2)
    1 1 1 1 1 envTimeoutRecovered [] base4 ⟨2, false⟩ 60 rfl rfl
    (by
      show waitLoop [(1000 : ℚ), 1000] ((1 : ℚ) * 60) 0 = Except.error 60
      unfold waitLoop
      rw [if_neg (by norm_num)]
      norm_num)
    (by decide)

/-- Witness for c4: with no best files, a timed-out run raises the timeout
error and restores the original directory, and an early-exited run raises
the generic failure with the run directory still current. -/
theorem c4_missing_best_files_witness :
    run_mcsqs ⟨2, false⟩ [] (Scaling.scalar 4) 1 (some "/run") (some 2) 1 1 1 1 1
        envTimeoutFailed =
      ⟨runPreamble "/run" [] ⟨2, false⟩ [] (searchCmds base4 (addOns 1 1 1 1 1) 2) ++
        killReapEvents (searchCmds base4 (addOns 1 1 1 1 1) 2).length ++ bestEvents 2 ++
        [Event.chdir "/home"], "/home", Except.error RunError.searchTimeout⟩ ∧
    run_mcsqs ⟨2, false⟩ [] (Scaling.scalar 4) 1 (some "/run") (some 2) 1 1 1 1 1
        envExitedEarly =
      ⟨runPreamble "/run" [] ⟨2, false⟩ [] (searchCmds base4 (addOns 1 1 1 1 1) 2) ++
        bestEvents 2, "/run", Except.error RunError.searchFailed⟩ := by
  have h1 := c4_missing_best_files ⟨2, false⟩ [] (Scaling.scalar 4) 1 (some "/run") (some 2)
    1 1 1 1 1 envTimeoutFailed [] base4 ⟨2, false⟩ rfl rfl (by decide)
  have h2 := c4_missing_best_files ⟨2, false⟩ [] (Scaling.scalar 4) 1 (some "/run") (some 2)
    1 1 1 1 1 envExitedEarly [] base4 ⟨2, false⟩ rfl rfl (by decide)
  refine ⟨h1.1 60 ?_, h2.2 (max (max 0 0) 0) ?_⟩
  · show waitLoop [(1000 : ℚ), 1000] ((1 : ℚ) * 60) 0 = Except.error 60
    unfold waitLoop
    rw [if_neg (by norm_num)]
    norm_num
  · show waitLoop [(0 : ℚ), 0] ((1 : ℚ) * 60) 0 = Except.ok (max (max 0 0) 0)
    unfold waitLoop
    rw [if_pos (by norm_num)]
    unfold waitLoop
    rw [if_pos (by simp)]
    unfold waitLoop
    rfl

/-- Witness for c5: on the concrete two-instance directory the best
objective is the numeric token -1.02 and the second instance, whose report
ends in the sentinel, carries that same numeric value. -/
theorem c5_sentinel_reconciliation_witness :
    exDir2Sqs.objective_function = ObjectiveFunction.numeric "-1.02" ∧
    ∃ e, exDir2Sqs.allsqs[1]? = some e ∧
      e.objective_function = ObjectiveFunction.numeric "-1.02" := by
  have h := (c5_sentinel_reconciliation exDir2 exDir2After exDir2Sqs "." rfl).2 "-1.02"
    (by decide) (by decide)
  exact ⟨h.1, ⟨⟨["s two"], ObjectiveFunction.numeric "-1.02"⟩, by decide,
    h.2 1 ⟨["s two"], ObjectiveFunction.numeric "-1.02"⟩ (by decide) (by decide)⟩⟩

/-- Witness for c6: a non-integer scalar scaling is rejected with the
invalid-input error after the directory change. -/
theorem c6_integer_validation_witness :
    run_mcsqs ⟨2, false⟩ [] (Scaling.scalar (5 / 2)) 1 (some "/run") (some 2) 1 1 1 1 1
        envExitedEarly =
      ⟨[Event.chdir "/run"], "/run",
        Except.error (RunError.invalidInput
          ("Scaling should be an integer, not " ++ toString ((5 : ℚ) / 2)))⟩ :=
  (c6_integer_validation ⟨2, false⟩ [] (5 / 2) 1 (some "/run") (some 2) 1 1 1 1 1
    envExitedEarly rfl).1 (by norm_num)

/-- Witness for c7: vector scaling [2, 1, 3] of a 2-atom structure writes
the identity cell file and a 12-atom structure. -/
theorem c7_vector_scaling_witness :
    (∃ tail, (run_mcsqs ⟨2, false⟩ [] (Scaling.vector 2 1 3) 1 (some "/run") (some 2)
        1 1 1 1 1 envExitedEarly).events =
      Event.chdir "/run" :: Event.writeFile "sqscell.out" sqscellContent ::
        Event.writeStructure "rndstr.in" (Structure.scaleVec ⟨2, false⟩ 2 1 3) :: tail) ∧
    (Structure.scaleVec ⟨2, false⟩ 2 1 3).atoms = 2 * 1 * 3 * 2 ∧
    sqscellContent = ["1", "1 0 0", "0 1 0", "0 0 1"] :=
  c7_vector_scaling ⟨2, false⟩ [] 2 1 3 1 (some "/run") (some 2) 1 1 1 1 1 envExitedEarly rfl

/-- Witness for c8: the concrete single-instance directory has no indexed
files and its aggregated per-instance collection is empty. -/
theorem c8_instance_count_witness :
    exDirSingleSqs.allsqs.length = exDirSingle.countIndexed ∧
    exDirSingleSqs.allsqs.length = 0 := by
  have h := c8_instance_count exDirSingle exDirSingleAfter exDirSingleSqs "." rfl
  exact ⟨h.1, h.2 (by decide)⟩

/-- Witness for c9: a fully ordered structure is rejected with the empty
trace. -/
theorem c9_ordered_rejected_witness :
    run_mcsqs ⟨4, true⟩ [] (Scaling.scalar 4) 1 (some "/run") (some 2) 1 1 1 1 1
        envExitedEarly =
      ⟨[], "/home", Except.error (RunError.invalidInput "Pick a disordered structure")⟩ ∧
    (run_mcsqs ⟨4, true⟩ [] (Scaling.scalar 4) 1 (some "/run") (some 2) 1 1 1 1 1
      envExitedEarly).events.countP Event.isPopen = 0 :=
  c9_ordered_rejected ⟨4, true⟩ [] (Scaling.scalar 4) 1 (some "/run") (some 2) 1 1 1 1 1
    envExitedEarly rfl

/-- Witness for c10: omitting the instance count equals passing the detected
cpu count, four cores launch four indexed commands, one core launches the
single unindexed command. -/
theorem c10_default_instances_witness :
    run_mcsqs ⟨2, false⟩ [] (Scaling.scalar 4) 1 (some "/run") none 1 1 1 1 1
        envExitedEarly =
      run_mcsqs ⟨2, false⟩ [] (Scaling.scalar 4) 1 (some "/run")
        (some envExitedEarly.cpuCount) 1 1 1 1 1 envExitedEarly ∧
    (searchCmds ["mcsqs"] [] 4).length = 4 ∧
    searchCmds ["mcsqs"] [] 1 = [["mcsqs"]] := by
  have h := c10_default_instances ⟨2, false⟩ [] (Scaling.scalar 4) 1 (some "/run")
    1 1 1 1 1 envExitedEarly
  refine ⟨h.1, (h.2.1 ["mcsqs"] [] 4 (by norm_num)).1, ?_⟩
  have h3 := h.2.2 ["mcsqs"] []
  simpa using h3

end Mcsqs
